import Mathlib

/-!
Verification development for the guerillaglass native-foundation engine
(`engines/native-foundation/src/lib.rs` together with the shared clock in
`engines/protocol-rust/src/clock.rs`).

The Rust engine is a single-threaded request/response loop over a mutable
`State`.  The shallow embedding below mirrors it definition by definition:

* `serde_json` parameter extraction (`params.get(key).and_then(Value::as_*)`)
  is embedded as a `Params` structure whose fields are the typed extraction
  results (`Option _` per key actually read by any handler);
* the filesystem read of the imported transcript is an explicit map
  `FS : String → Option TranscriptPayload` (a parse failure or missing file
  is `none`);
* `f64` quantities (clock seconds, QA scores, auto-zoom settings) are
  embedded as `Rat`; every `f64` operation the engine performs on them
  (comparison, `max`, addition, division of a small integer by `4.0`,
  clamping) is exact at these values, so ordering and equality agree;
* ambient effects (`OffsetDateTime::now_utc`, the monotonic capture clock,
  freshly minted token/job-id strings, the `GG_AGENT_ALLOW_FORCE`
  environment variable) are passed in explicitly through `Env`;
* the two `HashMap`s of the session are association lists with
  insert-replaces-key semantics, and the best-effort write of the recents
  index is recorded in the `recents_file` field of the state;
* `String::to_lowercase` / `char::is_alphanumeric` are embedded with the
  ASCII `String.toLower` / `Char.isAlphanum`; all keyword sets the QA
  evaluator matches against are ASCII, where the two notions coincide.
-/

/-- Closed error-code enumeration of the protocol (`ProtocolErrorCode`). -/
inductive ErrorCode where
  | invalid_request
  | invalid_params
  | unsupported_method
  | permission_denied
  | needs_confirmation
  | qa_failed
  | missing_local_model
  | invalid_cut_plan
  | runtime_error
deriving DecidableEq, Repr

/-- One transcript entry as the engine reads it: the typed results of the
`text`/`word` string lookup and of the `startSeconds`/`start`/
`start_time_seconds` (resp. `end…`) fallback chains of `normalized_segment`
and `normalized_word`. -/
structure TEntry where
  text : Option String := none
  word : Option String := none
  startTime : Option Rat := none
  endTime : Option Rat := none
deriving DecidableEq

/-- Parsed imported-transcript JSON payload: the `segments` and `words`
arrays when present (`imported_transcript_payload` result). -/
structure TranscriptPayload where
  segments : Option (List TEntry) := none
  words : Option (List TEntry) := none
deriving DecidableEq

/-- The readable filesystem, restricted to imported transcripts: a path maps
to `some payload` when `fs::read_to_string` and the JSON parse both succeed. -/
def FS : Type := String → Option TranscriptPayload

/-- Mirrors `imported_transcript_payload`: an empty path reads nothing. -/
def imported_transcript_payload (fs : FS) (path : String) : Option TranscriptPayload :=
  if path = "" then none else fs path

/-- Mirrors `normalized_segment`: trimmed non-empty text with
`0 ≤ start < end`. -/
def normalized_segment (e : TEntry) : Option String :=
  match e.text, e.startTime, e.endTime with
  | some t, some st, some en =>
      let tt := t.trim
      if tt = "" ∨ st < 0 ∨ en ≤ st then none else some tt
  | _, _, _ => none

/-- Mirrors `normalized_word`: trimmed non-empty word with
`0 ≤ start < end`. -/
def normalized_word (e : TEntry) : Option String :=
  match e.word, e.startTime, e.endTime with
  | some w, some st, some en =>
      let ww := w.trim
      if ww = "" ∨ st < 0 ∨ en ≤ st then none else some ww
  | _, _, _ => none

/-- Mirrors `normalized_imported_transcript`: the filtered segment and word
texts, or `none` when the payload is unreadable or both lists come out
empty. -/
def normalized_imported_transcript (fs : FS) (path : String) :
    Option (List String × List String) :=
  match imported_transcript_payload fs path with
  | none => none
  | some payload =>
      let segs := (payload.segments.getD []).filterMap normalized_segment
      let words := (payload.words.getD []).filterMap normalized_word
      if segs = [] ∧ words = [] then none else some (segs, words)

/-- Mirrors `imported_transcript_is_valid`. -/
def imported_transcript_is_valid (fs : FS) (path : String) : Bool :=
  (normalized_imported_transcript fs path).isSome

/-- Mirrors `transcript_tokens`: lowercase, split on non-alphanumeric
characters, drop empty pieces. -/
def transcript_tokens (text : String) : List String :=
  (text.toLower.split fun character => ¬ character.isAlphanum).filter
    fun token => token ≠ ""

/-- Mirrors `has_any_token`. -/
def has_any_token (tokens : List String) (candidates : List String) : Bool :=
  candidates.any fun candidate => tokens.any fun token => token = candidate

/-- The four narrative-beat coverage flags of a QA report. -/
structure Coverage where
  hook : Bool
  action : Bool
  payoff : Bool
  takeaway : Bool
deriving DecidableEq, Repr

/-- Mirrors `transcript_coverage`: beat flags from keyword matches over the
concatenated normalized segments and words, paired with whether any usable
token exists. -/
def transcript_coverage (fs : FS) (path : String) : Option (Coverage × Bool) :=
  match normalized_imported_transcript fs path with
  | none => none
  | some (segs, words) =>
      let text := String.intercalate " " segs ++ " " ++ String.intercalate " " words
      let tokens := transcript_tokens text
      some
        ({ hook := has_any_token tokens ["hook", "intro", "opening"],
           action := has_any_token tokens ["action", "step", "steps", "process"],
           payoff := has_any_token tokens ["payoff", "result", "outcome"],
           takeaway := has_any_token tokens ["takeaway", "lesson", "conclusion"] },
         ¬ tokens.isEmpty)

/-- Typed extraction of the request parameters actually read by the engine
handlers (each field is `params.get(key).and_then(Value::as_*)`). -/
structure AutoZoomParams where
  isEnabled : Option Bool := none
  intensity : Option Rat := none
  minimumKeyframeInterval : Option Rat := none
deriving DecidableEq

/-- Typed view of a request's `params` object, one optional field per key
any handler extracts. -/
structure Params where
  runtimeBudgetMinutes : Option Int := none
  transcriptionProvider : Option String := none
  importedTranscriptPath : Option String := none
  preflightToken : Option String := none
  force : Option Bool := none
  jobId : Option String := none
  destructiveIntent : Option Bool := none
  outputURL : Option String := none
  presetId : Option String := none
  projectPath : Option String := none
  autoZoom : Option AutoZoomParams := none
  limit : Option Nat := none
  trackInputEvents : Option Bool := none
  windowId : Option Nat := none

/-- Mirrors `transcription_provider`: anything other than the literal
`imported_transcript` collapses to `none`. -/
def transcription_provider (p : Params) : String :=
  match p.transcriptionProvider.getD "none" with
  | "imported_transcript" => "imported_transcript"
  | _ => "none"

/-- Mirrors `RunningDuration` from `protocol-rust/src/clock.rs`; the clock
read `clock.now_seconds()` is passed in explicitly. -/
structure RunningDuration where
  accumulated_seconds : Rat := 0
  started_at_seconds : Option Rat := none
deriving DecidableEq

/-- Mirrors `RunningDuration::start` (re-entrant: no reset while running). -/
def RunningDuration.start (r : RunningDuration) (now : Rat) : RunningDuration :=
  match r.started_at_seconds with
  | none => { r with started_at_seconds := some now }
  | some _ => r

/-- Mirrors `RunningDuration::stop`. -/
def RunningDuration.stop (r : RunningDuration) (now : Rat) : RunningDuration :=
  match r.started_at_seconds with
  | some startedAt =>
      { accumulated_seconds := r.accumulated_seconds + max (now - startedAt) 0,
        started_at_seconds := none }
  | none => r

/-- Mirrors `RunningDuration::current`. -/
def RunningDuration.current (r : RunningDuration) (now : Rat) : Rat :=
  match r.started_at_seconds with
  | some startedAt => r.accumulated_seconds + max (now - startedAt) 0
  | none => r.accumulated_seconds

/-- Capture metadata snapshot (`capture_metadata`): the varying part of the
static JSON payload the engine stores. -/
inductive CaptureMeta where
  | display
  | window (id : Nat)
deriving DecidableEq

/-- One persisted recents entry (`RecentProjectItem`). -/
structure RecentItem where
  projectPath : String
  displayName : String
  lastOpenedAt : String
deriving DecidableEq, Repr

/-- Stored preflight session snapshot (`PreflightSession`). -/
structure PreflightSession where
  token : String
  ready : Bool
  runtime_budget_minutes : Int
  transcription_provider : String
  imported_transcript_path : String
  project_path : Option String
  recording_url : Option String
  created_at_unix_seconds : Int
deriving DecidableEq

/-- Stored agent run record (`AgentRunState`); the `qa_report` JSON object is
decomposed into its four fields. -/
structure AgentRunState where
  job_id : String
  status : String
  runtime_budget_minutes : Int
  blocking_reason : Option String
  updated_at : String
  qa_passed : Bool
  qa_score : Rat
  qa_coverage : Coverage
  qa_missing_beats : List String
deriving DecidableEq

/-- Association-list lookup, the embedding of `HashMap::get`. -/
def alookup {α : Type} : List (String × α) → String → Option α
  | [], _ => none
  | (k, v) :: rest, key => if k = key then some v else alookup rest key

/-- Association-list removal, the embedding of `HashMap::remove`. -/
def aremove {α : Type} (l : List (String × α)) (key : String) : List (String × α) :=
  l.filter fun e => e.1 ≠ key

/-- Association-list insertion, the embedding of `HashMap::insert`
(replaces any existing binding of the key). -/
def ainsert {α : Type} (l : List (String × α)) (key : String) (v : α) :
    List (String × α) :=
  (key, v) :: aremove l key

/-- The mutable session state (`State`); `recents_file` records the contents
last written to the persisted recents index. -/
structure State where
  is_running : Bool := false
  is_recording : Bool := false
  recording_duration : RunningDuration := {}
  recording_url : Option String := none
  events_url : Option String := none
  last_error : Option String := none
  project_path : Option String := none
  auto_zoom_enabled : Bool := false
  auto_zoom_intensity : Rat := 11 / 20
  auto_zoom_min_keyframe_interval : Rat := 3 / 20
  capture_metadata : Option CaptureMeta := none
  recent_projects : List RecentItem := []
  recents_file : List RecentItem := []
  unsaved_changes : Bool := false
  agent_runs : List (String × AgentRunState) := []
  preflight_sessions : List (String × PreflightSession) := []

/-- The ambient inputs of one request: filesystem, wall clock, monotonic
capture clock, freshly minted identifier material, and the
`GG_AGENT_ALLOW_FORCE` environment gate. -/
structure Env where
  fs : FS
  nowUnix : Int
  nowIso : String
  clockNow : Rat
  freshToken : String
  jobNanos : String
  allowForce : Bool

/-- Result of `evaluate_agent_preflight`. -/
structure AgentPreflightEvaluation where
  ready : Bool
  blocking_reasons : List String
  runtime_budget_minutes : Int
  provider : String
  imported_transcript_path : String
deriving DecidableEq

/-- Mirrors `evaluate_agent_preflight`: collect the ordered blocking
reasons for the supplied parameters against the live session state. -/
def evaluate_agent_preflight (fs : FS) (s : State) (p : Params) :
    AgentPreflightEvaluation :=
  let runtime_budget_minutes := p.runtimeBudgetMinutes.getD 10
  let provider := transcription_provider p
  let imported_path := p.importedTranscriptPath.getD ""
  let blocking_reasons :=
    (if 1 ≤ runtime_budget_minutes ∧ runtime_budget_minutes ≤ 10 then []
     else ["invalid_runtime_budget"])
    ++ (if s.project_path = none then ["missing_project"] else [])
    ++ (if s.recording_url = none then ["missing_recording"] else [])
    ++ (match provider with
        | "imported_transcript" =>
            if imported_path = "" then ["missing_imported_transcript"]
            else if imported_transcript_is_valid fs imported_path then []
            else ["invalid_imported_transcript"]
        | _ => ["missing_local_model"])
  { ready := blocking_reasons.isEmpty,
    blocking_reasons := blocking_reasons,
    runtime_budget_minutes := runtime_budget_minutes,
    provider := provider,
    imported_transcript_path := imported_path }

/-- Result payload of `agent.preflight`. -/
structure PreflightResult where
  ready : Bool
  blockingReasons : List String
  canApplyDestructive : Bool
  transcriptionProvider : String
  preflightToken : Option String
deriving DecidableEq

/-- Mirrors `agent_preflight`: mint and store a session only when the
evaluation is fully ready. -/
def agent_preflight (fs : FS) (now : Int) (freshTok : String) (s : State)
    (p : Params) : PreflightResult × State :=
  let evaluation := evaluate_agent_preflight fs s p
  let sess : PreflightSession :=
    { token := freshTok,
      ready := true,
      runtime_budget_minutes := evaluation.runtime_budget_minutes,
      transcription_provider := evaluation.provider,
      imported_transcript_path := evaluation.imported_transcript_path,
      project_path := s.project_path,
      recording_url := s.recording_url,
      created_at_unix_seconds := now }
  let (token, s') :=
    if evaluation.ready then
      (some freshTok,
       { s with preflight_sessions := ainsert s.preflight_sessions freshTok sess })
    else (none, s)
  ({ ready := evaluation.ready,
     blockingReasons := evaluation.blocking_reasons,
     canApplyDestructive := s.unsaved_changes,
     transcriptionProvider := evaluation.provider,
     preflightToken := token },
   s')

/-- Fixed preflight-token TTL (`PREFLIGHT_TOKEN_TTL_SECONDS`). -/
def PREFLIGHT_TOKEN_TTL_SECONDS : Int := 60

/-- Mirrors `validate_preflight_token`: lookup, TTL check, live
re-evaluation match; a found token is removed on every branch past lookup. -/
def validate_preflight_token (now : Int) (fs : FS) (s : State) (tok : String)
    (p : Params) : Except String Unit × State :=
  if tok = "" then
    (.error "agent.preflight must be called first. preflightToken is required.", s)
  else
    match alookup s.preflight_sessions tok with
    | none =>
        (.error "preflightToken is missing or expired. Run agent.preflight again.", s)
    | some sess =>
        if PREFLIGHT_TOKEN_TTL_SECONDS < now - sess.created_at_unix_seconds then
          (.error "preflightToken expired. Run agent.preflight again.",
           { s with preflight_sessions := aremove s.preflight_sessions tok })
        else
          let evaluation := evaluate_agent_preflight fs s p
          if sess.ready = true ∧ sess.token = tok
              ∧ sess.runtime_budget_minutes = evaluation.runtime_budget_minutes
              ∧ sess.transcription_provider = evaluation.provider
              ∧ sess.imported_transcript_path = evaluation.imported_transcript_path
              ∧ sess.project_path = s.project_path
              ∧ sess.recording_url = s.recording_url then
            (.ok (),
             { s with preflight_sessions := aremove s.preflight_sessions tok })
          else
            (.error "preflightToken does not match current run parameters. Run agent.preflight again.",
             { s with preflight_sessions := aremove s.preflight_sessions tok })

/-- Mirrors `build_agent_run`: missing beats in fixed order, pass flag,
score as covered quarters. -/
def build_agent_run (job_id : String) (runtime_budget_minutes : Int)
    (coverage : Coverage) (blocking_reason : Option String) (nowIso : String) :
    AgentRunState :=
  let missing_beats :=
    (if coverage.hook then [] else ["hook"])
    ++ (if coverage.action then [] else ["action"])
    ++ (if coverage.payoff then [] else ["payoff"])
    ++ (if coverage.takeaway then [] else ["takeaway"])
  let covered_count := 4 - missing_beats.length
  let passed := missing_beats.isEmpty
  let score : Rat := (covered_count : Rat) / 4
  { job_id := job_id,
    status := if passed then "completed" else "blocked",
    runtime_budget_minutes := runtime_budget_minutes,
    blocking_reason := if passed then none else blocking_reason,
    updated_at := nowIso,
    qa_passed := passed,
    qa_score := score,
    qa_coverage := coverage,
    qa_missing_beats := missing_beats }

/-- Number of `true` coverage flags, as counted over the `coverage` object by
the `export.runCutPlan` arm. -/
def coveredCount (c : Coverage) : Nat :=
  [c.hook, c.action, c.payoff, c.takeaway].count true

/-- Capture-status payload (`State::capture_status`); the constant telemetry
block is omitted as static. -/
structure CaptureStatusView where
  isRunning : Bool
  isRecording : Bool
  recordingDurationSeconds : Rat
  recordingURL : Option String
  captureMetadata : Option CaptureMeta
  lastError : Option String
  eventsURL : Option String
deriving DecidableEq

/-- Mirrors `State::capture_status` (the clock read is explicit). -/
def State.capture_status (s : State) (clockNow : Rat) : CaptureStatusView :=
  { isRunning := s.is_running,
    isRecording := s.is_recording,
    recordingDurationSeconds := s.recording_duration.current clockNow,
    recordingURL := s.recording_url,
    captureMetadata := s.capture_metadata,
    lastError := s.last_error,
    eventsURL := s.events_url }

/-- Mirrors the `max_by(updated_at)` fold of `State::project_state`: the
last run (in map-iteration order) with maximal `updated_at`. -/
def latestRun (runs : List (String × AgentRunState)) : Option AgentRunState :=
  runs.foldl
    (fun acc e =>
      match acc with
      | none => some e.2
      | some m => if e.2.updated_at < m.updated_at then some m else some e.2)
    none

/-- Project-state payload (`State::project_state`). -/
structure ProjectStateView where
  projectPath : Option String
  recordingURL : Option String
  eventsURL : Option String
  autoZoomEnabled : Bool
  autoZoomIntensity : Rat
  autoZoomMinKeyframeInterval : Rat
  captureMetadata : Option CaptureMeta
  latestJobId : Option String
  latestStatus : Option String
  qaPassed : Option Bool
  updatedAt : Option String
deriving DecidableEq

/-- Mirrors `State::project_state`. -/
def State.project_state (s : State) : ProjectStateView :=
  let latest := latestRun s.agent_runs
  { projectPath := s.project_path,
    recordingURL := s.recording_url,
    eventsURL := s.events_url,
    autoZoomEnabled := s.auto_zoom_enabled,
    autoZoomIntensity := s.auto_zoom_intensity,
    autoZoomMinKeyframeInterval := s.auto_zoom_min_keyframe_interval,
    captureMetadata := s.capture_metadata,
    latestJobId := latest.map (fun run => run.job_id),
    latestStatus := latest.map (fun run => run.status),
    qaPassed := latest.map (fun run => run.qa_passed),
    updatedAt := latest.map (fun run => run.updated_at) }

/-- Rust `Path::file_name` on the textual path: the last component after
dropping empty and `.` segments, unless it is `..`. -/
def fileNameOf (path : String) : Option String :=
  let segments := (path.splitOn "/").filter fun seg => seg ≠ "" ∧ seg ≠ "."
  match segments.getLast? with
  | none => none
  | some last => if last = ".." then none else some last

/-- Rust `Path::file_stem` on a file name: the part before the final dot,
except that a leading dot alone does not split. -/
def fileStemOfName (name : String) : String :=
  match name.splitOn "." with
  | [] => name
  | [_] => name
  | parts =>
      let before := String.intercalate "." parts.dropLast
      if before = "" then name else before

/-- Mirrors the display-name derivation of `record_recent_project`
(`file_stem` with the whole path as fallback). -/
def display_name_of (path : String) : String :=
  match fileNameOf path with
  | some name => fileStemOfName name
  | none => path

/-- The recents item minted for a path at a timestamp. -/
def mkRecentItem (path iso : String) : RecentItem :=
  { projectPath := path, displayName := display_name_of path, lastOpenedAt := iso }

/-- Bound on the recents index (`MAX_RECENT_PROJECTS`). -/
def MAX_RECENT_PROJECTS : Nat := 20

/-- Default `project.recents` limit (`DEFAULT_RECENTS_LIMIT`). -/
def DEFAULT_RECENTS_LIMIT : Nat := 10

/-- Mirrors `record_recent_project`: dedupe by path, insert at front,
truncate to the cap, persist the whole list. -/
def record_recent_project (s : State) (project_path : String) (nowIso : String) :
    State :=
  let item := mkRecentItem project_path nowIso
  let kept := s.recent_projects.filter fun existing => existing.projectPath ≠ project_path
  let inserted := item :: kept
  let final :=
    if MAX_RECENT_PROJECTS < inserted.length then inserted.take MAX_RECENT_PROJECTS
    else inserted
  { s with recent_projects := final, recents_file := final }

/-- Success payloads of the engine responses, one constructor per handler
payload shape; constant informational payloads carry only a tag. -/
inductive RVal where
  | payload : String → RVal
  | capture : CaptureStatusView → RVal
  | project : ProjectStateView → RVal
  | preflight : PreflightResult → RVal
  | runStarted : String → String → RVal
  | runStatus : AgentRunState → RVal
  | applied : RVal
  | exported : String → RVal
  | exportedCut : String → Nat → RVal
  | recents : List RecentItem → RVal
deriving DecidableEq

/-- One engine response: success payload or typed failure. -/
inductive Response where
  | ok : RVal → Response
  | err : ErrorCode → String → Response
deriving DecidableEq

/-- The resolved method registry, exactly the arms of the
`native-foundation` dispatcher match. -/
inductive EngineMethod where
  | systemPing
  | engineCapabilities
  | agentPreflight
  | agentRun
  | agentStatus
  | agentApply
  | permissionsGet
  | permissionsRequestScreenRecording
  | permissionsRequestMicrophone
  | permissionsRequestInputMonitoring
  | permissionsOpenInputMonitoringSettings
  | sourcesList
  | captureStartDisplay
  | captureStartCurrentWindow
  | captureStartWindow
  | captureStop
  | recordingStart
  | recordingStop
  | captureStatus
  | exportInfo
  | exportRun
  | exportRunCutPlan
  | projectCurrent
  | projectOpen
  | projectSave
  | projectRecents
deriving DecidableEq

/-- The `agent.run` arm after successful token validation: budget bound,
force gate, QA judgement, and storage of the freshly built run record. -/
def agentRunAfterValidate (env : Env) (s : State) (p : Params) :
    Response × State :=
  let runtime_budget_minutes := p.runtimeBudgetMinutes.getD 10
  let force := p.force.getD false
  if ¬ (1 ≤ runtime_budget_minutes ∧ runtime_budget_minutes ≤ 10) then
    (.err .invalid_params "runtimeBudgetMinutes must be between 1 and 10", s)
  else if force = true ∧ env.allowForce = false then
    (.err .invalid_params "force is disabled for production runs. Set GG_AGENT_ALLOW_FORCE=1 for local debugging.", s)
  else
    let job_id := "agent-" ++ toString (s.agent_runs.length + 1) ++ "-" ++ env.jobNanos
    let provider := transcription_provider p
    let imported_path := p.importedTranscriptPath.getD ""
    let judged : Coverage × Option String :=
      if force then
        ({ hook := true, action := true, payoff := true, takeaway := true }, none)
      else if provider = "imported_transcript" then
        match transcript_coverage env.fs imported_path with
        | some (coverage, hasTokens) =>
            (coverage,
             if hasTokens then some "weak_narrative_structure"
             else some "empty_transcript")
        | none =>
            ({ hook := false, action := false, payoff := false, takeaway := false },
             some "empty_transcript")
      else
        let duration := s.recording_duration.current env.clockNow
        ({ hook := true,
           action := decide (15 ≤ duration),
           payoff := decide (30 ≤ duration),
           takeaway := decide (45 ≤ duration) },
         some "weak_narrative_structure")
    let run := build_agent_run job_id runtime_budget_minutes judged.1 judged.2 env.nowIso
    (.ok (.runStarted job_id run.status),
     { s with agent_runs := ainsert s.agent_runs job_id run,
              unsaved_changes := true })

/-- The full `agent.run` arm. -/
def handleAgentRun (env : Env) (s : State) (p : Params) : Response × State :=
  let tok := p.preflightToken.getD ""
  match validate_preflight_token env.nowUnix env.fs s tok p with
  | (.error message, s1) => (.err .invalid_params message, s1)
  | (.ok _, s1) => agentRunAfterValidate env s1 p

/-- The `agent.status` arm. -/
def handleAgentStatus (s : State) (p : Params) : Response × State :=
  match p.jobId with
  | none => (.err .invalid_params "jobId is required", s)
  | some job_id =>
      match alookup s.agent_runs job_id with
      | none => (.err .invalid_params ("Unknown jobId: " ++ job_id), s)
      | some run => (.ok (.runStatus run), s)

/-- The `agent.apply` arm: QA gate first, then the unsaved-changes
confirmation gate. -/
def handleAgentApply (s : State) (p : Params) : Response × State :=
  match p.jobId with
  | none => (.err .invalid_params "jobId is required", s)
  | some job_id =>
      let destructive_intent := p.destructiveIntent.getD false
      match alookup s.agent_runs job_id with
      | none => (.err .invalid_params ("Unknown jobId: " ++ job_id), s)
      | some run =>
          if run.qa_passed = false then
            (.err .qa_failed "Narrative QA failed. Apply is blocked.", s)
          else if s.unsaved_changes = true ∧ destructive_intent = false then
            (.err .needs_confirmation "Unsaved project changes detected. Retry with destructiveIntent=true to continue.", s)
          else
            (.ok .applied, { s with unsaved_changes := true })

/-- The `export.run` arm (the artifact write is a dropped best-effort
filesystem effect). -/
def handleExportRun (s : State) (p : Params) : Response × State :=
  match p.outputURL with
  | none => (.err .invalid_params "outputURL is required", s)
  | some output_url => (.ok (.exported output_url), s)

/-- The `export.runCutPlan` arm: parameter checks, QA gate, covered-beat
count. -/
def handleExportRunCutPlan (s : State) (p : Params) : Response × State :=
  match p.outputURL with
  | none => (.err .invalid_params "outputURL is required", s)
  | some output_url =>
      if p.presetId = none then
        (.err .invalid_params "presetId is required", s)
      else
        match p.jobId with
        | none => (.err .invalid_params "jobId is required", s)
        | some job_id =>
            match alookup s.agent_runs job_id with
            | none => (.err .invalid_params ("Unknown jobId: " ++ job_id), s)
            | some run =>
                if run.qa_passed = false then
                  (.err .qa_failed "Narrative QA failed. Cut-plan export is blocked.", s)
                else
                  let applied_segments := coveredCount run.qa_coverage
                  if applied_segments = 0 then
                    (.err .invalid_cut_plan "Cut plan artifact is missing.", s)
                  else
                    (.ok (.exportedCut output_url applied_segments), s)

/-- The `capture.startDisplay` arm. -/
def handleCaptureStartDisplay (env : Env) (s : State) : Response × State :=
  let s' := { s with is_running := true, capture_metadata := some .display }
  (.ok (.capture (s'.capture_status env.clockNow)), s')

/-- The `capture.startCurrentWindow` arm. -/
def handleCaptureStartCurrentWindow (env : Env) (s : State) : Response × State :=
  let s' := { s with is_running := true, capture_metadata := some (.window 101) }
  (.ok (.capture (s'.capture_status env.clockNow)), s')

/-- The `capture.startWindow` arm (window id defaults to 101). -/
def handleCaptureStartWindow (env : Env) (s : State) (p : Params) :
    Response × State :=
  let window_id := p.windowId.getD 101
  let s' := { s with is_running := true, capture_metadata := some (.window window_id) }
  (.ok (.capture (s'.capture_status env.clockNow)), s')

/-- The `capture.stop` arm. -/
def handleCaptureStop (env : Env) (s : State) : Response × State :=
  let s' :=
    { s with recording_duration := s.recording_duration.stop env.clockNow,
             is_recording := false,
             is_running := false }
  (.ok (.capture (s'.capture_status env.clockNow)), s')

/-- The `recording.start` arm: requires capture to be running. -/
def handleRecordingStart (env : Env) (s : State) (p : Params) :
    Response × State :=
  if s.is_running = false then
    (.err .invalid_params "Start capture before recording", s)
  else
    let s1 :=
      { s with is_recording := true,
               recording_duration := s.recording_duration.start env.clockNow,
               recording_url := some "native://recordings/session.mp4" }
    let s2 :=
      if p.trackInputEvents.getD false then
        { s1 with events_url := some "native://events/session-events.json" }
      else s1
    (.ok (.capture (s2.capture_status env.clockNow)), s2)

/-- The `recording.stop` arm: stops accumulation and marks the session
dirty. -/
def handleRecordingStop (env : Env) (s : State) : Response × State :=
  let s' :=
    { s with recording_duration := s.recording_duration.stop env.clockNow,
             is_recording := false,
             unsaved_changes := true }
  (.ok (.capture (s'.capture_status env.clockNow)), s')

/-- The `project.open` arm. -/
def handleProjectOpen (env : Env) (s : State) (p : Params) : Response × State :=
  match p.projectPath with
  | none => (.err .invalid_params "projectPath is required", s)
  | some project_path =>
      let s1 := { s with project_path := some project_path, unsaved_changes := false }
      let s2 := record_recent_project s1 project_path env.nowIso
      (.ok (.project s2.project_state), s2)

/-- The `project.save` arm: optional path update, auto-zoom clamping,
snapshot write (dropped effect) plus recents recording when a project path
is set, then the dirty flag is cleared. -/
def handleProjectSave (env : Env) (s : State) (p : Params) : Response × State :=
  let s1 :=
    match p.projectPath with
    | some project_path => { s with project_path := some project_path }
    | none => s
  let s2 :=
    match p.autoZoom with
    | some az =>
        { s1 with
          auto_zoom_enabled := az.isEnabled.getD s1.auto_zoom_enabled,
          auto_zoom_intensity :=
            max 0 (min 1 (az.intensity.getD s1.auto_zoom_intensity)),
          auto_zoom_min_keyframe_interval :=
            max (1 / 10000) (az.minimumKeyframeInterval.getD s1.auto_zoom_min_keyframe_interval) }
    | none => s1
  let s3 :=
    match s2.project_path with
    | some project_path => record_recent_project s2 project_path env.nowIso
    | none => s2
  let s4 := { s3 with unsaved_changes := false }
  (.ok (.project s4.project_state), s4)

/-- The `project.recents` arm: `min(limit, 100)` items, default 10. -/
def handleProjectRecents (s : State) (p : Params) : Response × State :=
  let limit :=
    match p.limit with
    | some value => min value 100
    | none => DEFAULT_RECENTS_LIMIT
  (.ok (.recents (s.recent_projects.take limit)), s)

/-- The `agent.preflight` arm. -/
def handleAgentPreflight (env : Env) (s : State) (p : Params) :
    Response × State :=
  let (result, s') := agent_preflight env.fs env.nowUnix env.freshToken s p
  (.ok (.preflight result), s')

/-- Mirrors `handle_request`: the full dispatcher over a resolved method. -/
def handle_request (env : Env) (s : State) (m : EngineMethod) (p : Params) :
    Response × State :=
  match m with
  | .systemPing => (.ok (.payload "system.ping"), s)
  | .engineCapabilities => (.ok (.payload "engine.capabilities"), s)
  | .agentPreflight => handleAgentPreflight env s p
  | .agentRun => handleAgentRun env s p
  | .agentStatus => handleAgentStatus s p
  | .agentApply => handleAgentApply s p
  | .permissionsGet => (.ok (.payload "permissions.get"), s)
  | .permissionsRequestScreenRecording => (.ok (.payload "permissions.flow"), s)
  | .permissionsRequestMicrophone => (.ok (.payload "permissions.flow"), s)
  | .permissionsRequestInputMonitoring => (.ok (.payload "permissions.flow"), s)
  | .permissionsOpenInputMonitoringSettings => (.ok (.payload "permissions.flow"), s)
  | .sourcesList => (.ok (.payload "sources.list"), s)
  | .captureStartDisplay => handleCaptureStartDisplay env s
  | .captureStartCurrentWindow => handleCaptureStartCurrentWindow env s
  | .captureStartWindow => handleCaptureStartWindow env s p
  | .captureStop => handleCaptureStop env s
  | .recordingStart => handleRecordingStart env s p
  | .recordingStop => handleRecordingStop env s
  | .captureStatus => (.ok (.capture (s.capture_status env.clockNow)), s)
  | .exportInfo => (.ok (.payload "export.info"), s)
  | .exportRun => handleExportRun s p
  | .exportRunCutPlan => handleExportRunCutPlan s p
  | .projectCurrent => (.ok (.project s.project_state), s)
  | .projectOpen => handleProjectOpen env s p
  | .projectSave => handleProjectSave env s p
  | .projectRecents => handleProjectRecents s p

/-- A fixed environment used when only the timestamp matters to a request. -/
def openEnv (iso : String) : Env :=
  { fs := fun _ => none, nowUnix := 0, nowIso := iso, clockNow := 0,
    freshToken := "", jobNanos := "", allowForce := false }

/-- Folds a sequence of `project.open` requests (path, timestamp pairs)
through the dispatcher. -/
def openMany (s : State) : List (String × String) → State
  | [] => s
  | (project_path, iso) :: rest =>
      openMany
        (handle_request (openEnv iso) s .projectOpen
          { projectPath := some project_path }).2
        rest

/-- Folds an arbitrary request sequence through the dispatcher. -/
def handleMany (s : State) : List (Env × EngineMethod × Params) → State
  | [] => s
  | (env, m, p) :: rest => handleMany (handle_request env s m p).2 rest

/-- The usable lowercase tokens of the imported transcript at a path: the
token list the QA judge matches its keyword sets against (empty when the
transcript has no usable content). -/
def transcriptTokensAt (fs : FS) (path : String) : List String :=
  match normalized_imported_transcript fs path with
  | none => []
  | some (segs, words) =>
      transcript_tokens (String.intercalate " " segs ++ " " ++ String.intercalate " " words)

/-! ## Concrete fixtures used by the witnesses -/

/-- Example filesystem: one transcript covering all four beats, one covering
only the hook. -/
def fsEx : FS := fun path =>
  if path = "/tmp/full.json" then
    some { segments := some [{ text := some "Hook action payoff takeaway",
                               startTime := some 0, endTime := some 2 }],
           words := none }
  else if path = "/tmp/hookonly.json" then
    some { segments := some [{ text := some "Hook intro opening",
                               startTime := some 0, endTime := some 1 }],
           words := none }
  else none

/-- Example stored preflight session. -/
def sessEx : PreflightSession :=
  { token := "preflight-1", ready := true, runtime_budget_minutes := 10,
    transcription_provider := "imported_transcript",
    imported_transcript_path := "/tmp/full.json",
    project_path := some "/proj", recording_url := some "rec",
    created_at_unix_seconds := 0 }

/-- Example session state holding `sessEx`. -/
def sEx : State :=
  { project_path := some "/proj", recording_url := some "rec",
    preflight_sessions := [("preflight-1", sessEx)] }

/-- Example request environment. -/
def envEx : Env :=
  { fs := fsEx, nowUnix := 10, nowIso := "2026-01-01T00:00:00Z", clockNow := 0,
    freshToken := "preflight-2", jobNanos := "100", allowForce := false }

/-- Example `agent.run` parameters matching `sessEx`. -/
def pEx : Params :=
  { transcriptionProvider := some "imported_transcript",
    importedTranscriptPath := some "/tmp/full.json",
    preflightToken := some "preflight-1" }


/-- Example QA-passed agent run record. -/
def runPassedEx : AgentRunState :=
  build_agent_run "agent-1-100" 10
    { hook := true, action := true, payoff := true, takeaway := true }
    none "2026-01-01T00:00:00Z"

/-- Example QA-blocked agent run record. -/
def runBlockedEx : AgentRunState :=
  build_agent_run "agent-2-100" 10
    { hook := true, action := false, payoff := false, takeaway := false }
    (some "weak_narrative_structure") "2026-01-01T00:00:00Z"

/-- Example dirty session holding the two run records. -/
def sRunEx : State :=
  { unsaved_changes := true,
    agent_runs := [("job-1", runPassedEx), ("job-2", runBlockedEx)] }

/-- Example `agent.apply` parameters. -/
def pApplyEx : Params := { jobId := some "job-1" }

/-- Example `export.runCutPlan` parameters. -/
def pExportEx : Params :=
  { jobId := some "job-1", outputURL := some "/out/cut.mp4",
    presetId := some "h264-1080p-30" }

/-- Example session whose stored preflight snapshot has provider `none`. -/
def sessNoneEx : PreflightSession :=
  { token := "preflight-6", ready := true, runtime_budget_minutes := 10,
    transcription_provider := "none", imported_transcript_path := "",
    project_path := some "/proj", recording_url := some "rec",
    created_at_unix_seconds := 0 }

/-- Example state holding `sessNoneEx`. -/
def sNoneEx : State :=
  { project_path := some "/proj", recording_url := some "rec",
    preflight_sessions := [("preflight-6", sessNoneEx)] }

/-- Example `agent.run` parameters with no transcription provider. -/
def pNoneEx : Params := { preflightToken := some "preflight-6" }

/-! ## Basic association-list lemmas -/

theorem alookup_aremove_self {α : Type} (l : List (String × α)) (key : String) :
    alookup (aremove l key) key = none := by
  induction l with
  | nil => rfl
  | cons e rest ih =>
      obtain ⟨k, v⟩ := e
      by_cases h : k = key
      · simpa [aremove, List.filter_cons, h] using ih
      · simpa [aremove, List.filter_cons, h, alookup] using ih

theorem alookup_ainsert_self {α : Type} (l : List (String × α)) (key : String) (v : α) :
    alookup (ainsert l key v) key = some v := by
  simp [ainsert, alookup]

/-! ## State-shape lemmas for the validation step -/

theorem validate_preflight_token_state_shape (now : Int) (fs : FS) (s : State)
    (tok : String) (p : Params) :
    ∃ l, (validate_preflight_token now fs s tok p).2 = { s with preflight_sessions := l } := by
  simp only [validate_preflight_token]
  repeat' split
  all_goals exact ⟨_, rfl⟩

theorem validate_preflight_token_found_evicts (now : Int) (fs : FS) (s : State)
    (tok : String) (p : Params) (sess : PreflightSession)
    (htok : tok ≠ "")
    (hfind : alookup s.preflight_sessions tok = some sess) :
    alookup ((validate_preflight_token now fs s tok p).2).preflight_sessions tok = none := by
  simp only [validate_preflight_token, if_neg htok, hfind]
  repeat' split
  all_goals simp [alookup_aremove_self]

theorem validate_preflight_token_not_found (now : Int) (fs : FS) (s : State)
    (tok : String) (p : Params)
    (htok : tok ≠ "")
    (hfind : alookup s.preflight_sessions tok = none) :
    validate_preflight_token now fs s tok p
      = (.error "preflightToken is missing or expired. Run agent.preflight again.", s) := by
  unfold validate_preflight_token
  simp [if_neg htok, hfind]

theorem agentRunAfterValidate_preflight_sessions (env : Env) (s : State) (p : Params) :
    (agentRunAfterValidate env s p).2.preflight_sessions = s.preflight_sessions := by
  simp only [agentRunAfterValidate]
  repeat' split
  all_goals rfl

/-! ## Claim C1 -/

/-- C1: for every preflight token stored in the session's preflight map, the
first `agent.run` call supplying that token removes it from the map
regardless of that call's outcome, so a second `agent.run` supplying the
same token fails with an `invalid_params` error saying the token is missing
or expired.  (Stored tokens are never empty: `agent.preflight` mints them as
`preflight-…` strings.) -/
theorem C1_preflight_token_single_use (env env2 : Env) (s : State) (p p2 : Params)
    (tok : String) (sess : PreflightSession)
    (htok : tok ≠ "")
    (hfind : alookup s.preflight_sessions tok = some sess)
    (hp : p.preflightToken = some tok)
    (hp2 : p2.preflightToken = some tok) :
    alookup ((handle_request env s .agentRun p).2).preflight_sessions tok = none
    ∧ (handle_request env2 (handle_request env s .agentRun p).2 .agentRun p2).1
        = .err .invalid_params
            "preflightToken is missing or expired. Run agent.preflight again." := by
  have h1 : alookup ((handle_request env s .agentRun p).2).preflight_sessions tok = none := by
    simp only [handle_request, handleAgentRun, hp, Option.getD_some]
    have hevict := validate_preflight_token_found_evicts env.nowUnix env.fs s tok p sess htok hfind
    cases hval : validate_preflight_token env.nowUnix env.fs s tok p with
    | mk r s1 =>
        rw [hval] at hevict
        cases r with
        | error msg => simpa using hevict
        | ok u => simpa [agentRunAfterValidate_preflight_sessions] using hevict
  refine ⟨h1, ?_⟩
  set s2 := (handle_request env s .agentRun p).2 with hs2
  simp only [handle_request, handleAgentRun, hp2, Option.getD_some]
  rw [validate_preflight_token_not_found env2.nowUnix env2.fs s2 tok p2 htok h1]

/-! ## Claim C2 -/

/-- C2: given a stored session for the supplied token (stored sessions have
`ready = true` and key-matching token), validation accepts iff the token age
is within the 60-second TTL and the live re-evaluation reproduces the
snapshotted budget, provider and transcript path while the current project
path and recording URL equal the snapshotted ones; the found token is
evicted in every case, and on every validation error `agent.run` surfaces it
as an `invalid_params` failure. -/
theorem C2_validate_accepts_iff (env : Env) (s : State) (tok : String)
    (p : Params) (sess : PreflightSession)
    (htok : tok ≠ "")
    (hfind : alookup s.preflight_sessions tok = some sess)
    (hready : sess.ready = true)
    (htoken : sess.token = tok) :
    ((validate_preflight_token env.nowUnix env.fs s tok p).1 = .ok () ↔
      (env.nowUnix - sess.created_at_unix_seconds ≤ PREFLIGHT_TOKEN_TTL_SECONDS
       ∧ sess.runtime_budget_minutes = (evaluate_agent_preflight env.fs s p).runtime_budget_minutes
       ∧ sess.transcription_provider = (evaluate_agent_preflight env.fs s p).provider
       ∧ sess.imported_transcript_path = (evaluate_agent_preflight env.fs s p).imported_transcript_path
       ∧ sess.project_path = s.project_path
       ∧ sess.recording_url = s.recording_url))
    ∧ alookup ((validate_preflight_token env.nowUnix env.fs s tok p).2).preflight_sessions tok = none
    ∧ (∀ msg, (validate_preflight_token env.nowUnix env.fs s tok p).1 = .error msg →
        p.preflightToken = some tok →
        (handle_request env s .agentRun p).1 = .err .invalid_params msg) := by
  refine ⟨?_, validate_preflight_token_found_evicts _ _ _ _ _ _ htok hfind, ?_⟩
  · simp only [validate_preflight_token, if_neg htok, hfind]
    by_cases hexp : PREFLIGHT_TOKEN_TTL_SECONDS < env.nowUnix - sess.created_at_unix_seconds
    · simp only [if_pos hexp]
      constructor
      · intro h; exact absurd h (by simp)
      · rintro ⟨hage, -⟩; omega
    · simp only [if_neg hexp]
      split
      · rename_i h
        simp only [true_iff]
        exact ⟨by omega, h.2.2⟩
      · rename_i h
        constructor
        · intro hok; exact absurd hok (by simp)
        · rintro ⟨-, hrest⟩; exact absurd ⟨hready, htoken, hrest⟩ h
  · intro msg hmsg hp
    simp only [handle_request, handleAgentRun, hp, Option.getD_some]
    cases hval : validate_preflight_token env.nowUnix env.fs s tok p with
    | mk r s1 =>
        rw [hval] at hmsg
        cases r with
        | error m => simp_all
        | ok u => simp at hmsg

theorem C1_witness :
    alookup ((handle_request envEx sEx .agentRun pEx).2).preflight_sessions "preflight-1" = none
    ∧ (handle_request envEx (handle_request envEx sEx .agentRun pEx).2 .agentRun pEx).1
        = .err .invalid_params
            "preflightToken is missing or expired. Run agent.preflight again." :=
  C1_preflight_token_single_use envEx envEx sEx pEx pEx "preflight-1" sessEx
    (by decide) rfl rfl rfl

theorem C2_witness :
    ((validate_preflight_token envEx.nowUnix envEx.fs sEx "preflight-1" pEx).1 = .ok () ↔
      (envEx.nowUnix - sessEx.created_at_unix_seconds ≤ PREFLIGHT_TOKEN_TTL_SECONDS
       ∧ sessEx.runtime_budget_minutes = (evaluate_agent_preflight envEx.fs sEx pEx).runtime_budget_minutes
       ∧ sessEx.transcription_provider = (evaluate_agent_preflight envEx.fs sEx pEx).provider
       ∧ sessEx.imported_transcript_path = (evaluate_agent_preflight envEx.fs sEx pEx).imported_transcript_path
       ∧ sessEx.project_path = sEx.project_path
       ∧ sessEx.recording_url = sEx.recording_url))
    ∧ alookup ((validate_preflight_token envEx.nowUnix envEx.fs sEx "preflight-1" pEx).2).preflight_sessions "preflight-1" = none
    ∧ (∀ msg, (validate_preflight_token envEx.nowUnix envEx.fs sEx "preflight-1" pEx).1 = .error msg →
        pEx.preflightToken = some "preflight-1" →
        (handle_request envEx sEx .agentRun pEx).1 = .err .invalid_params msg) :=
  C2_validate_accepts_iff envEx sEx "preflight-1" pEx sessEx (by decide) rfl rfl rfl

/-! ## Claim C3 -/

theorem ite_nil_iff {c : Prop} [Decidable c] (x : String) :
    ((if c then ([] : List String) else [x]) = []) ↔ c := by
  split <;> simp_all

theorem ite_nil_iff_not {c : Prop} [Decidable c] (x : String) :
    ((if c then [x] else ([] : List String)) = []) ↔ ¬ c := by
  split <;> simp_all

theorem transcription_provider_cases (p : Params) :
    transcription_provider p = "imported_transcript"
      ∨ transcription_provider p = "none" := by
  unfold transcription_provider
  split
  · exact Or.inl rfl
  · exact Or.inr rfl

theorem evaluate_ready_iff (fs : FS) (s : State) (p : Params) :
    (evaluate_agent_preflight fs s p).ready = true ↔
      (evaluate_agent_preflight fs s p).blocking_reasons = [] := by
  have h : (evaluate_agent_preflight fs s p).ready
      = (evaluate_agent_preflight fs s p).blocking_reasons.isEmpty := rfl
  rw [h, List.isEmpty_iff]

/-- C3: `agent.preflight` returns a non-null token and stores a new
`PreflightSession` exactly when its computed blocking-reason list is empty,
which happens exactly when the budget lies in `[1,10]`, a project is open, a
recording URL is set, and the provider is `imported_transcript` with a
structurally valid transcript; with no open project and no recording the
result is not ready, the blocking reasons contain both `missing_project` and
`missing_recording`, and no token is issued. -/
theorem C3_preflight_mints_iff_ready (fs : FS) (now : Int) (freshTok : String)
    (s : State) (p : Params) :
    ((agent_preflight fs now freshTok s p).1.preflightToken = some freshTok ↔
      (evaluate_agent_preflight fs s p).blocking_reasons = [])
    ∧ ((evaluate_agent_preflight fs s p).blocking_reasons = [] →
        (agent_preflight fs now freshTok s p).2.preflight_sessions
          = ainsert s.preflight_sessions freshTok
              { token := freshTok, ready := true,
                runtime_budget_minutes := (evaluate_agent_preflight fs s p).runtime_budget_minutes,
                transcription_provider := (evaluate_agent_preflight fs s p).provider,
                imported_transcript_path := (evaluate_agent_preflight fs s p).imported_transcript_path,
                project_path := s.project_path,
                recording_url := s.recording_url,
                created_at_unix_seconds := now })
    ∧ ((evaluate_agent_preflight fs s p).blocking_reasons ≠ [] →
        (agent_preflight fs now freshTok s p).1.preflightToken = none
        ∧ (agent_preflight fs now freshTok s p).2 = s)
    ∧ ((evaluate_agent_preflight fs s p).blocking_reasons = [] ↔
        ((1 ≤ p.runtimeBudgetMinutes.getD 10 ∧ p.runtimeBudgetMinutes.getD 10 ≤ 10)
         ∧ s.project_path ≠ none ∧ s.recording_url ≠ none
         ∧ transcription_provider p = "imported_transcript"
         ∧ p.importedTranscriptPath.getD "" ≠ ""
         ∧ imported_transcript_is_valid fs (p.importedTranscriptPath.getD "") = true))
    ∧ (s.project_path = none → s.recording_url = none →
        (agent_preflight fs now freshTok s p).1.ready = false
        ∧ "missing_project" ∈ (agent_preflight fs now freshTok s p).1.blockingReasons
        ∧ "missing_recording" ∈ (agent_preflight fs now freshTok s p).1.blockingReasons
        ∧ (agent_preflight fs now freshTok s p).1.preflightToken = none) := by
  refine ⟨?_, ?_, ?_, ?_, ?_⟩
  · by_cases hr : (evaluate_agent_preflight fs s p).ready = true
    · simp only [agent_preflight, hr, if_true]
      simp [(evaluate_ready_iff fs s p).mp hr]
    · simp only [agent_preflight, if_neg hr]
      simp only [reduceCtorEq, false_iff]
      intro h
      exact hr ((evaluate_ready_iff fs s p).mpr h)
  · intro h
    have hr : (evaluate_agent_preflight fs s p).ready = true :=
      (evaluate_ready_iff fs s p).mpr h
    simp [agent_preflight, hr]
  · intro h
    have hr : ¬ (evaluate_agent_preflight fs s p).ready = true := by
      intro hr
      exact h ((evaluate_ready_iff fs s p).mp hr)
    simp [agent_preflight, if_neg hr]
  · simp only [evaluate_agent_preflight]
    rw [List.append_eq_nil, List.append_eq_nil, List.append_eq_nil]
    rw [ite_nil_iff, ite_nil_iff_not, ite_nil_iff_not]
    rcases transcription_provider_cases p with hprov | hprov <;> rw [hprov]
    · by_cases hpath : p.importedTranscriptPath.getD "" = ""
      · simp [hpath, hprov]
      · by_cases hvalid : imported_transcript_is_valid fs (p.importedTranscriptPath.getD "") = true
        · simp [hpath, hvalid, hprov, and_assoc]
        · simp [hpath, hvalid, hprov]
    · simp [hprov]
  · intro hproj hrec
    have hne : (evaluate_agent_preflight fs s p).blocking_reasons ≠ [] := by
      simp [evaluate_agent_preflight, hproj, hrec]
    have hr : ¬ (evaluate_agent_preflight fs s p).ready = true := by
      intro hr
      exact hne ((evaluate_ready_iff fs s p).mp hr)
    refine ⟨?_, ?_, ?_, ?_⟩
    · simp only [agent_preflight, if_neg hr]
      simpa [Bool.not_eq_true] using hr
    · simp [agent_preflight, if_neg hr, evaluate_agent_preflight, hproj, hrec]
    · simp [agent_preflight, if_neg hr, evaluate_agent_preflight, hproj, hrec]
    · simp [agent_preflight, if_neg hr]

theorem C3_witness :
    ((agent_preflight fsEx 10 "preflight-9" {} {}).1.preflightToken = some "preflight-9" ↔
      (evaluate_agent_preflight fsEx {} {}).blocking_reasons = [])
    ∧ ((evaluate_agent_preflight fsEx {} {}).blocking_reasons = [] →
        (agent_preflight fsEx 10 "preflight-9" {} {}).2.preflight_sessions
          = ainsert ({} : State).preflight_sessions "preflight-9"
              { token := "preflight-9", ready := true,
                runtime_budget_minutes := (evaluate_agent_preflight fsEx {} {}).runtime_budget_minutes,
                transcription_provider := (evaluate_agent_preflight fsEx {} {}).provider,
                imported_transcript_path := (evaluate_agent_preflight fsEx {} {}).imported_transcript_path,
                project_path := ({} : State).project_path,
                recording_url := ({} : State).recording_url,
                created_at_unix_seconds := 10 })
    ∧ ((evaluate_agent_preflight fsEx {} {}).blocking_reasons ≠ [] →
        (agent_preflight fsEx 10 "preflight-9" {} {}).1.preflightToken = none
        ∧ (agent_preflight fsEx 10 "preflight-9" {} {}).2 = {})
    ∧ ((evaluate_agent_preflight fsEx {} {}).blocking_reasons = [] ↔
        ((1 ≤ (({} : Params).runtimeBudgetMinutes.getD 10)
          ∧ (({} : Params).runtimeBudgetMinutes.getD 10) ≤ 10)
         ∧ ({} : State).project_path ≠ none ∧ ({} : State).recording_url ≠ none
         ∧ transcription_provider {} = "imported_transcript"
         ∧ (({} : Params).importedTranscriptPath.getD "") ≠ ""
         ∧ imported_transcript_is_valid fsEx (({} : Params).importedTranscriptPath.getD "") = true))
    ∧ (({} : State).project_path = none → ({} : State).recording_url = none →
        (agent_preflight fsEx 10 "preflight-9" {} {}).1.ready = false
        ∧ "missing_project" ∈ (agent_preflight fsEx 10 "preflight-9" {} {}).1.blockingReasons
        ∧ "missing_recording" ∈ (agent_preflight fsEx 10 "preflight-9" {} {}).1.blockingReasons
        ∧ (agent_preflight fsEx 10 "preflight-9" {} {}).1.preflightToken = none) :=
  C3_preflight_mints_iff_ready fsEx 10 "preflight-9" {} {}

/-! ## Properties of `build_agent_run` -/

theorem build_agent_run_fields (job : String) (b : Int) (c : Coverage)
    (reason : Option String) (iso : String) :
    (build_agent_run job b c reason iso).qa_coverage = c
    ∧ (build_agent_run job b c reason iso).job_id = job
    ∧ (build_agent_run job b c reason iso).runtime_budget_minutes = b
    ∧ (build_agent_run job b c reason iso).updated_at = iso
    ∧ (build_agent_run job b c reason iso).qa_missing_beats
        = (if c.hook then [] else ["hook"]) ++ (if c.action then [] else ["action"])
          ++ (if c.payoff then [] else ["payoff"]) ++ (if c.takeaway then [] else ["takeaway"])
    ∧ (build_agent_run job b c reason iso).qa_passed
        = (c.hook && c.action && c.payoff && c.takeaway) := by
  obtain ⟨ch, ca, cp, ct⟩ := c
  cases ch <;> cases ca <;> cases cp <;> cases ct <;> simp [build_agent_run]

theorem build_agent_run_status_iff (job : String) (b : Int) (c : Coverage)
    (reason : Option String) (iso : String) :
    ((build_agent_run job b c reason iso).status = "completed"
      ∧ (build_agent_run job b c reason iso).qa_passed = true
      ∧ (build_agent_run job b c reason iso).qa_score = 1
      ∧ (build_agent_run job b c reason iso).qa_missing_beats = [] ↔
      (c.hook = true ∧ c.action = true ∧ c.payoff = true ∧ c.takeaway = true))
    ∧ (¬ (c.hook = true ∧ c.action = true ∧ c.payoff = true ∧ c.takeaway = true) →
        (build_agent_run job b c reason iso).status = "blocked"
        ∧ (build_agent_run job b c reason iso).blocking_reason = reason) := by
  obtain ⟨ch, ca, cp, ct⟩ := c
  cases ch <;> cases ca <;> cases cp <;> cases ct <;> simp [build_agent_run]

theorem has_any_token_nil (candidates : List String) :
    has_any_token [] candidates = false := by
  simp [has_any_token]

/-! ## Claim C8 -/

/-- C8: in every run record built by `agent.run`, `qaReport.passed` is true
iff all four coverage flags are true iff `missingBeats` is empty, the score
always equals `(4 - |missingBeats|)/4`, and a QA-passed run always has
exactly four covered beats, so `export.runCutPlan` on a QA-passed run
reports `appliedSegments = 4` and its `invalid_cut_plan` branch is
unreachable. -/
theorem C8_qa_report_invariants (job : String) (b : Int) (c : Coverage)
    (reason : Option String) (iso : String) :
    ((build_agent_run job b c reason iso).qa_passed = true ↔
      (c.hook = true ∧ c.action = true ∧ c.payoff = true ∧ c.takeaway = true))
    ∧ ((build_agent_run job b c reason iso).qa_passed = true ↔
        (build_agent_run job b c reason iso).qa_missing_beats = [])
    ∧ (build_agent_run job b c reason iso).qa_missing_beats.length ≤ 4
    ∧ (build_agent_run job b c reason iso).qa_score
        = ((4 - (build_agent_run job b c reason iso).qa_missing_beats.length : Nat) : Rat) / 4
    ∧ ((build_agent_run job b c reason iso).qa_passed = true →
        coveredCount (build_agent_run job b c reason iso).qa_coverage = 4)
    ∧ ((build_agent_run job b c reason iso).qa_passed = true →
        ∀ (env : Env) (s : State) (p : Params) (url target : String),
          p.outputURL = some url → p.presetId ≠ none → p.jobId = some target →
          alookup s.agent_runs target = some (build_agent_run job b c reason iso) →
          handle_request env s .exportRunCutPlan p = (.ok (.exportedCut url 4), s)) := by
  have hexp : ∀ run : AgentRunState, run.qa_passed = true → coveredCount run.qa_coverage = 4 →
      ∀ (env : Env) (s : State) (p : Params) (url target : String),
        p.outputURL = some url → p.presetId ≠ none → p.jobId = some target →
        alookup s.agent_runs target = some run →
        handle_request env s .exportRunCutPlan p = (.ok (.exportedCut url 4), s) := by
    intro run hpass hcount env s p url target h1 h2 h3 h4
    simp only [handle_request, handleExportRunCutPlan, h1, h3, h4, if_neg h2, hpass, hcount]
    norm_num
  refine ⟨?_, ?_, ?_, ?_, ?_, ?_⟩
  case _ | _ | _ | _ | _ =>
    obtain ⟨ch, ca, cp, ct⟩ := c
    cases ch <;> cases ca <;> cases cp <;> cases ct <;>
      simp [build_agent_run, coveredCount]
  case _ =>
    intro hpass
    have hcount : coveredCount (build_agent_run job b c reason iso).qa_coverage = 4 := by
      obtain ⟨ch, ca, cp, ct⟩ := c
      cases ch <;> cases ca <;> cases cp <;> cases ct <;>
        simp_all [build_agent_run, coveredCount]
    exact hexp _ hpass hcount

/-! ## Claim C4 -/

theorem transcript_coverage_spec (fs : FS) (path : String) :
    (transcript_coverage fs path = none → transcriptTokensAt fs path = [])
    ∧ (∀ cov ht, transcript_coverage fs path = some (cov, ht) →
        cov.hook = has_any_token (transcriptTokensAt fs path) ["hook", "intro", "opening"]
        ∧ cov.action = has_any_token (transcriptTokensAt fs path) ["action", "step", "steps", "process"]
        ∧ cov.payoff = has_any_token (transcriptTokensAt fs path) ["payoff", "result", "outcome"]
        ∧ cov.takeaway = has_any_token (transcriptTokensAt fs path) ["takeaway", "lesson", "conclusion"]
        ∧ (ht = true ↔ transcriptTokensAt fs path ≠ [])) := by
  unfold transcript_coverage transcriptTokensAt
  cases hN : normalized_imported_transcript fs path with
  | none => simp
  | some pair =>
      obtain ⟨segs, words⟩ := pair
      refine ⟨by simp, ?_⟩
      intro cov ht h
      simp only [Option.some_inj, Prod.mk.injEq] at h
      obtain ⟨hcov, hht⟩ := h
      subst hcov
      subst hht
      simp [List.isEmpty_iff]

theorem validate_ok_component (env : Env) (s : State) (p : Params) (r : Except String Unit)
    (s1 : State)
    (hval : validate_preflight_token env.nowUnix env.fs s (p.preflightToken.getD "") p = (r, s1)) :
    s1.agent_runs = s.agent_runs ∧ s1.recording_duration = s.recording_duration
      ∧ s1.unsaved_changes = s.unsaved_changes := by
  obtain ⟨l, hl⟩ :=
    validate_preflight_token_state_shape env.nowUnix env.fs s (p.preflightToken.getD "") p
  rw [hval] at hl
  simp only at hl
  simp [hl]

/-- C4: for an `agent.run` that passes token validation with provider
`imported_transcript` and no force flag, each beat is true iff a keyword of
its fixed set occurs among the lowercase alphanumeric tokens of the
normalized transcript; the stored record is `completed` with
`passed = true`, `score = 1` and empty `missingBeats` iff all four beats
hold, otherwise `blocked` with `missingBeats` listing exactly the uncovered
beats, and a blocked run's reason is `empty_transcript` when no usable
token exists, else `weak_narrative_structure`. -/
theorem C4_imported_transcript_qa (env : Env) (s : State) (p : Params)
    (hv : (validate_preflight_token env.nowUnix env.fs s (p.preflightToken.getD "") p).1 = .ok ())
    (hprov : transcription_provider p = "imported_transcript")
    (hforce : p.force.getD false = false)
    (hb : 1 ≤ p.runtimeBudgetMinutes.getD 10 ∧ p.runtimeBudgetMinutes.getD 10 ≤ 10) :
    ∃ run : AgentRunState,
      (handle_request env s .agentRun p).1 = .ok (.runStarted run.job_id run.status)
      ∧ alookup ((handle_request env s .agentRun p).2).agent_runs run.job_id = some run
      ∧ run.qa_coverage.hook
          = has_any_token (transcriptTokensAt env.fs (p.importedTranscriptPath.getD ""))
              ["hook", "intro", "opening"]
      ∧ run.qa_coverage.action
          = has_any_token (transcriptTokensAt env.fs (p.importedTranscriptPath.getD ""))
              ["action", "step", "steps", "process"]
      ∧ run.qa_coverage.payoff
          = has_any_token (transcriptTokensAt env.fs (p.importedTranscriptPath.getD ""))
              ["payoff", "result", "outcome"]
      ∧ run.qa_coverage.takeaway
          = has_any_token (transcriptTokensAt env.fs (p.importedTranscriptPath.getD ""))
              ["takeaway", "lesson", "conclusion"]
      ∧ (run.status = "completed" ∧ run.qa_passed = true ∧ run.qa_score = 1
          ∧ run.qa_missing_beats = [] ↔
          (run.qa_coverage.hook = true ∧ run.qa_coverage.action = true
           ∧ run.qa_coverage.payoff = true ∧ run.qa_coverage.takeaway = true))
      ∧ run.qa_missing_beats
          = (if run.qa_coverage.hook then [] else ["hook"])
            ++ (if run.qa_coverage.action then [] else ["action"])
            ++ (if run.qa_coverage.payoff then [] else ["payoff"])
            ++ (if run.qa_coverage.takeaway then [] else ["takeaway"])
      ∧ (¬ (run.qa_coverage.hook = true ∧ run.qa_coverage.action = true
            ∧ run.qa_coverage.payoff = true ∧ run.qa_coverage.takeaway = true) →
          run.status = "blocked"
          ∧ run.blocking_reason
              = (if transcriptTokensAt env.fs (p.importedTranscriptPath.getD "") = []
                 then some "empty_transcript" else some "weak_narrative_structure"))
      ∧ (transcriptTokensAt env.fs (p.importedTranscriptPath.getD "") = [] →
          run.qa_coverage = ⟨false, false, false, false⟩) := by
  cases hval : validate_preflight_token env.nowUnix env.fs s (p.preflightToken.getD "") p with
  | mk r s1 =>
  rw [hval] at hv
  cases r with
  | error m => exact absurd hv (by simp)
  | ok u =>
  cases u
  have hspec := transcript_coverage_spec env.fs (p.importedTranscriptPath.getD "")
  simp only [handle_request, handleAgentRun, hval]
  simp only [agentRunAfterValidate, hforce, if_neg (not_not_intro hb)]
  simp only [Bool.false_eq_true, false_and, if_false, if_pos hprov, reduceIte]
  cases hcov : transcript_coverage env.fs (p.importedTranscriptPath.getD "") with
  | none =>
      have htoks : transcriptTokensAt env.fs (p.importedTranscriptPath.getD "") = [] :=
        hspec.1 hcov
      refine ⟨build_agent_run
          ("agent-" ++ toString (s1.agent_runs.length + 1) ++ "-" ++ env.jobNanos)
          (p.runtimeBudgetMinutes.getD 10)
          { hook := false, action := false, payoff := false, takeaway := false }
          (some "empty_transcript") env.nowIso, rfl, ?_, ?_⟩
      · exact alookup_ainsert_self _ _ _
      · simp [build_agent_run, htoks, has_any_token_nil]
  | some pair =>
      obtain ⟨cov, ht⟩ := pair
      obtain ⟨hhook, haction, hpayoff, htake, hht⟩ := hspec.2 cov ht hcov
      refine ⟨build_agent_run
          ("agent-" ++ toString (s1.agent_runs.length + 1) ++ "-" ++ env.jobNanos)
          (p.runtimeBudgetMinutes.getD 10) cov
          (if ht = true then some "weak_narrative_structure" else some "empty_transcript")
          env.nowIso, rfl, ?_, ?_⟩
      · exact alookup_ainsert_self _ _ _
      · obtain ⟨hcovf, hjob, hbud, hupd, hmissing, hpassed⟩ :=
          build_agent_run_fields
            ("agent-" ++ toString (s1.agent_runs.length + 1) ++ "-" ++ env.jobNanos)
            (p.runtimeBudgetMinutes.getD 10) cov
            (if ht = true then some "weak_narrative_structure" else some "empty_transcript")
            env.nowIso
        obtain ⟨hstat1, hstat2⟩ :=
          build_agent_run_status_iff
            ("agent-" ++ toString (s1.agent_runs.length + 1) ++ "-" ++ env.jobNanos)
            (p.runtimeBudgetMinutes.getD 10) cov
            (if ht = true then some "weak_narrative_structure" else some "empty_transcript")
            env.nowIso
        rw [hcovf] at *
        refine ⟨hhook, haction, hpayoff, htake, hstat1, hmissing, ?_, ?_⟩
        · intro hnot
          obtain ⟨hbl, hreason⟩ := hstat2 hnot
          refine ⟨hbl, ?_⟩
          rw [hreason]
          by_cases htoks : transcriptTokensAt env.fs (p.importedTranscriptPath.getD "") = []
          · have : ht ≠ true := by
              intro habs
              exact (hht.mp habs) htoks
            simp [htoks, this]
          · have : ht = true := hht.mpr htoks
            simp [htoks, this]
        · intro htoks
          have hhtf : ht ≠ true := fun habs => (hht.mp habs) htoks
          obtain ⟨ch, ca, cp, ct⟩ := cov
          simp_all [has_any_token_nil]

/-! ## Claim C6 -/

/-- C6: for an `agent.run` that passes token validation with a provider
other than `imported_transcript` and no force flag, beat coverage is derived
from the current recording duration: hook always true, action iff at least
15 seconds, payoff iff at least 30, takeaway iff at least 45, and a blocked
run's blocking reason is always `weak_narrative_structure`. -/
theorem C6_duration_qa (env : Env) (s : State) (p : Params)
    (hv : (validate_preflight_token env.nowUnix env.fs s (p.preflightToken.getD "") p).1 = .ok ())
    (hprov : transcription_provider p ≠ "imported_transcript")
    (hforce : p.force.getD false = false)
    (hb : 1 ≤ p.runtimeBudgetMinutes.getD 10 ∧ p.runtimeBudgetMinutes.getD 10 ≤ 10) :
    ∃ run : AgentRunState,
      (handle_request env s .agentRun p).1 = .ok (.runStarted run.job_id run.status)
      ∧ alookup ((handle_request env s .agentRun p).2).agent_runs run.job_id = some run
      ∧ run.qa_coverage.hook = true
      ∧ (run.qa_coverage.action = true ↔ 15 ≤ s.recording_duration.current env.clockNow)
      ∧ (run.qa_coverage.payoff = true ↔ 30 ≤ s.recording_duration.current env.clockNow)
      ∧ (run.qa_coverage.takeaway = true ↔ 45 ≤ s.recording_duration.current env.clockNow)
      ∧ (run.status = "blocked" → run.blocking_reason = some "weak_narrative_structure") := by
  cases hval : validate_preflight_token env.nowUnix env.fs s (p.preflightToken.getD "") p with
  | mk r s1 =>
  rw [hval] at hv
  cases r with
  | error m => exact absurd hv (by simp)
  | ok u =>
  cases u
  have hdur : s1.recording_duration = s.recording_duration :=
    (validate_ok_component env s p _ _ hval).2.1
  simp only [handle_request, handleAgentRun, hval]
  simp only [agentRunAfterValidate, hforce, if_neg (not_not_intro hb)]
  simp only [Bool.false_eq_true, false_and, if_false, if_neg hprov, reduceIte]
  rw [hdur]
  set c : Coverage :=
    { hook := true,
      action := decide (15 ≤ s.recording_duration.current env.clockNow),
      payoff := decide (30 ≤ s.recording_duration.current env.clockNow),
      takeaway := decide (45 ≤ s.recording_duration.current env.clockNow) } with hc
  refine ⟨build_agent_run
      ("agent-" ++ toString (s1.agent_runs.length + 1) ++ "-" ++ env.jobNanos)
      (p.runtimeBudgetMinutes.getD 10) c
      (some "weak_narrative_structure") env.nowIso, rfl, ?_, ?_⟩
  · exact alookup_ainsert_self _ _ _
  · obtain ⟨hcovf, hjob, hbud, hupd, hmissing, hpassed⟩ :=
      build_agent_run_fields
        ("agent-" ++ toString (s1.agent_runs.length + 1) ++ "-" ++ env.jobNanos)
        (p.runtimeBudgetMinutes.getD 10) c
        (some "weak_narrative_structure") env.nowIso
    obtain ⟨hstat1, hstat2⟩ :=
      build_agent_run_status_iff
        ("agent-" ++ toString (s1.agent_runs.length + 1) ++ "-" ++ env.jobNanos)
        (p.runtimeBudgetMinutes.getD 10) c
        (some "weak_narrative_structure") env.nowIso
    rw [hcovf] at *
    refine ⟨by simp [hc], by simp [hc], by simp [hc], by simp [hc], ?_⟩
    intro hbl
    rcases em (c.hook = true ∧ c.action = true ∧ c.payoff = true ∧ c.takeaway = true) with hall | hnot
    · have := hstat1.mpr hall
      rw [hbl] at this
      exact absurd this.1 (by simp)
    · exact (hstat2 hnot).2

/-! ## Claim C5 -/

/-- C5: `agent.apply` with a known job id fails `qa_failed` whenever the
run's QA did not pass, regardless of `destructiveIntent`; with passing QA
and unsaved changes but no destructive intent it fails
`needs_confirmation` leaving the state unchanged; with passing QA and
either destructive intent or no unsaved changes it succeeds and marks the
session dirty — so the confirmation-failed call retried with the flag set
succeeds. -/
theorem C5_apply_gates (env : Env) (s : State) (p : Params) (jid : String)
    (run : AgentRunState)
    (hjob : p.jobId = some jid)
    (hfind : alookup s.agent_runs jid = some run) :
    (run.qa_passed = false →
      handle_request env s .agentApply p
        = (.err .qa_failed "Narrative QA failed. Apply is blocked.", s))
    ∧ (run.qa_passed = true → s.unsaved_changes = true →
        p.destructiveIntent.getD false = false →
        handle_request env s .agentApply p
          = (.err .needs_confirmation
              "Unsaved project changes detected. Retry with destructiveIntent=true to continue.", s))
    ∧ (run.qa_passed = true →
        (p.destructiveIntent.getD false = true ∨ s.unsaved_changes = false) →
        (handle_request env s .agentApply p).1 = .ok .applied
        ∧ (handle_request env s .agentApply p).2
            = { s with unsaved_changes := true })
    ∧ (run.qa_passed = true → s.unsaved_changes = true →
        p.destructiveIntent.getD false = false →
        (handle_request env
            (handle_request env s .agentApply p).2 .agentApply
            { p with destructiveIntent := some true }).1 = .ok .applied) := by
  refine ⟨?_, ?_, ?_, ?_⟩
  · intro hqa
    simp [handle_request, handleAgentApply, hjob, hfind, hqa]
  · intro hqa hun hdi
    simp [handle_request, handleAgentApply, hjob, hfind, hqa, hun, hdi]
  · intro hqa hdi
    rcases hdi with hdi | hdi <;>
      simp [handle_request, handleAgentApply, hjob, hfind, hqa, hdi]
  · intro hqa hun hdi
    have hfirst : (handle_request env s .agentApply p).2 = s := by
      simp [handle_request, handleAgentApply, hjob, hfind, hqa, hun, hdi]
    rw [hfirst]
    simp [handle_request, handleAgentApply, hjob, hfind, hqa]

/-! ## Claim C7 -/

/-- C7: `export.runCutPlan` with `outputURL`, `presetId` and a known job id
fails `qa_failed` when the run's QA did not pass; when it passed, it fails
`invalid_cut_plan` iff the number of true coverage flags is zero, and
otherwise succeeds reporting that count as `appliedSegments`. -/
theorem C7_export_cut_plan_gates (env : Env) (s : State) (p : Params)
    (jid url : String) (run : AgentRunState)
    (hurl : p.outputURL = some url)
    (hpreset : p.presetId ≠ none)
    (hjob : p.jobId = some jid)
    (hfind : alookup s.agent_runs jid = some run) :
    (run.qa_passed = false →
      handle_request env s .exportRunCutPlan p
        = (.err .qa_failed "Narrative QA failed. Cut-plan export is blocked.", s))
    ∧ (run.qa_passed = true →
        ((handle_request env s .exportRunCutPlan p).1
            = .err .invalid_cut_plan "Cut plan artifact is missing." ↔
          coveredCount run.qa_coverage = 0))
    ∧ (run.qa_passed = true → coveredCount run.qa_coverage ≠ 0 →
        handle_request env s .exportRunCutPlan p
          = (.ok (.exportedCut url (coveredCount run.qa_coverage)), s)) := by
  refine ⟨?_, ?_, ?_⟩
  · intro hqa
    simp [handle_request, handleExportRunCutPlan, hurl, hpreset, hjob, hfind, hqa]
  · intro hqa
    by_cases hz : coveredCount run.qa_coverage = 0
    · simp [handle_request, handleExportRunCutPlan, hurl, hpreset, hjob, hfind, hqa, hz]
    · simp [handle_request, handleExportRunCutPlan, hurl, hpreset, hjob, hfind, hqa, hz]
  · intro hqa hz
    simp [handle_request, handleExportRunCutPlan, hurl, hpreset, hjob, hfind, hqa, hz]

/-! ## Recents-index lemmas -/

theorem record_recent_project_take (s : State) (pp iso : String) :
    (record_recent_project s pp iso).recent_projects
      = (mkRecentItem pp iso
          :: s.recent_projects.filter fun it => it.projectPath ≠ pp).take MAX_RECENT_PROJECTS
    ∧ (record_recent_project s pp iso).recents_file
        = (record_recent_project s pp iso).recent_projects := by
  constructor
  · simp only [record_recent_project]
    split
    · rfl
    · rename_i h
      rw [List.take_of_length_le (Nat.not_lt.mp h)]
  · rfl

theorem take_append_take {α : Type} (A B : List α) (n : Nat) :
    (A ++ B.take n).take n = (A ++ B).take n := by
  rw [List.take_append_eq_append_take, List.take_append_eq_append_take, List.take_take]
  congr 1
  rw [Nat.min_eq_left (Nat.sub_le n A.length)]

theorem length_filter_path_ne (l : List RecentItem) (pp : String) :
    (l.filter fun it => it.projectPath ≠ pp).length
      = l.length - l.countP fun it => it.projectPath = pp := by
  induction l with
  | nil => rfl
  | cons a t ih =>
      have hle : t.countP (fun it => decide (it.projectPath = pp)) ≤ t.length :=
        List.countP_le_length _
      by_cases h : a.projectPath = pp
      · rw [List.filter_cons, if_neg (by simp [h]), List.countP_cons, if_pos (by simp [h]),
          List.length_cons, ih]
        omega
      · rw [List.filter_cons, if_pos (by simp [h]), List.countP_cons, if_neg (by simp [h]),
          List.length_cons, List.length_cons, ih]
        omega

theorem openMany_recent_projects (ps : List (String × String)) :
    ∀ s : State, (ps.map Prod.fst).Nodup →
      s.recent_projects.length ≤ MAX_RECENT_PROJECTS →
      (∀ it ∈ s.recent_projects, ∀ pr ∈ ps, it.projectPath ≠ pr.1) →
      (openMany s ps).recent_projects
        = ((ps.reverse.map fun pr => mkRecentItem pr.1 pr.2)
            ++ s.recent_projects).take MAX_RECENT_PROJECTS := by
  induction ps with
  | nil =>
      intro s _ hlen _
      simp [openMany, List.take_of_length_le hlen]
  | cons pr rest ih =>
      intro s hnodup hlen hdisj
      obtain ⟨pp, iso⟩ := pr
      have hstep : (handle_request (openEnv iso) s .projectOpen { projectPath := some pp }).2
          = record_recent_project
              { s with project_path := some pp, unsaved_changes := false } pp iso := by
        simp [handle_request, handleProjectOpen, openEnv]
      have hfilter :
          s.recent_projects.filter (fun it => it.projectPath ≠ pp) = s.recent_projects := by
        rw [List.filter_eq_self]
        intro a ha
        simpa using hdisj a ha (pp, iso) (List.mem_cons_self _ _)
      have hrec :=
        (record_recent_project_take
          { s with project_path := some pp, unsaved_changes := false } pp iso).1
      simp only at hrec
      rw [hfilter] at hrec
      have hnodup' : (rest.map Prod.fst).Nodup := (List.nodup_cons.mp hnodup).2
      have hppnot : pp ∉ rest.map Prod.fst := (List.nodup_cons.mp hnodup).1
      rw [openMany, hstep]
      rw [ih _ hnodup'
        (by rw [hrec]; exact List.length_take_le _ _)
        (by
          intro it hit q hq
          rw [hrec] at hit
          have hit' := List.take_subset _ _ hit
          rcases List.mem_cons.mp hit' with hcase | hcase
          · subst hcase
            intro habs
            have hq1 : q.1 = pp := habs.symm
            exact hppnot (hq1 ▸ List.mem_map_of_mem Prod.fst hq)
          · exact hdisj it hcase q (List.mem_cons_of_mem _ hq))]
      rw [hrec, take_append_take]
      congr 1
      simp [List.map_append]

/-! ## Claim C9 -/

/-- C9: `project.open` (and `project.save` with a project path set) removes
any entry with the same path, inserts a fresh item (display name derived
from the path's final component, timestamped now) at the front, truncates
to 20 and persists the list; opening 25 distinct projects retains exactly
the 20 most recent in most-recent-first order, reopening an existing path
moves it to the front without growing the list, and `project.recents`
returns the first `min(limit, 100)` items with a default limit of 10. -/
theorem C9_recents_index (env : Env) (s : State) (p : Params) (pp : String) :
    (p.projectPath = some pp →
      (handle_request env s .projectOpen p).2.recent_projects
        = (mkRecentItem pp env.nowIso
            :: s.recent_projects.filter fun it => it.projectPath ≠ pp).take MAX_RECENT_PROJECTS
      ∧ (handle_request env s .projectOpen p).2.recents_file
          = (handle_request env s .projectOpen p).2.recent_projects)
    ∧ (p.projectPath = some pp →
        (handle_request env s .projectSave p).2.recent_projects
          = (mkRecentItem pp env.nowIso
              :: s.recent_projects.filter fun it => it.projectPath ≠ pp).take MAX_RECENT_PROJECTS)
    ∧ (∀ ps : List (String × String), ps.length = 25 → (ps.map Prod.fst).Nodup →
        s.recent_projects = [] →
        (openMany s ps).recent_projects
          = (ps.reverse.map fun pr => mkRecentItem pr.1 pr.2).take MAX_RECENT_PROJECTS
        ∧ (openMany s ps).recent_projects.length = MAX_RECENT_PROJECTS)
    ∧ (p.projectPath = some pp →
        s.recent_projects.countP (fun it => it.projectPath = pp) = 1 →
        s.recent_projects.length ≤ MAX_RECENT_PROJECTS →
        (handle_request env s .projectOpen p).2.recent_projects.length
            = s.recent_projects.length
        ∧ (handle_request env s .projectOpen p).2.recent_projects.head?
            = some (mkRecentItem pp env.nowIso))
    ∧ handle_request env s .projectRecents p
        = (.ok (.recents (s.recent_projects.take
            (match p.limit with
             | some v => min v 100
             | none => DEFAULT_RECENTS_LIMIT))), s) := by
  refine ⟨?_, ?_, ?_, ?_, ?_⟩
  · intro hpp
    simp only [handle_request, handleProjectOpen, hpp]
    exact record_recent_project_take _ pp env.nowIso
  · intro hpp
    simp only [handle_request, handleProjectSave, hpp]
    cases haz : p.autoZoom with
    | none => exact (record_recent_project_take _ pp env.nowIso).1
    | some az => exact (record_recent_project_take _ pp env.nowIso).1
  · intro ps hlen hnodup hempty
    have h :=
      openMany_recent_projects ps s hnodup
        (by rw [hempty]; simp [MAX_RECENT_PROJECTS])
        (by rw [hempty]; intro it hit; cases hit)
    rw [hempty] at h
    rw [List.append_nil] at h
    refine ⟨h, ?_⟩
    rw [h, List.length_take, List.length_map, List.length_reverse, hlen]
    decide
  · intro hpp hcount hlen
    have hrec := (record_recent_project_take
      { s with project_path := some pp, unsaved_changes := false } pp env.nowIso).1
    have hflen :
        (s.recent_projects.filter fun it => it.projectPath ≠ pp).length
          = s.recent_projects.length - 1 := by
      rw [length_filter_path_ne, hcount]
    have hposlen : 1 ≤ s.recent_projects.length := by
      have := List.countP_le_length (l := s.recent_projects)
        (p := fun it => decide (it.projectPath = pp))
      omega
    have hshort :
        ((mkRecentItem pp env.nowIso
          :: s.recent_projects.filter fun it => it.projectPath ≠ pp)).length
          ≤ MAX_RECENT_PROJECTS := by
      simp only [List.length_cons, hflen]
      omega
    simp only [handle_request, handleProjectOpen, hpp]
    rw [hrec, List.take_of_length_le hshort]
    constructor
    · simp only [List.length_cons, hflen]
      omega
    · rfl
  · rfl

/-! ## Claim C10 -/

/-- C10: every successful `agent.run` sets the session's unsaved-changes
flag; no method other than `project.open` and `project.save` clears it
(single step and over whole request sequences); consequently an
`agent.apply` on a QA-passed job without `destructiveIntent` while the flag
is set always fails `needs_confirmation` rather than succeeding. -/
theorem C10_run_sets_dirty_then_apply_confirms :
    (∀ (env : Env) (s : State) (p : Params) (r : RVal) (s' : State),
      handle_request env s .agentRun p = (.ok r, s') → s'.unsaved_changes = true)
    ∧ (∀ (env : Env) (s : State) (m : EngineMethod) (p : Params),
        m ≠ .projectOpen → m ≠ .projectSave → s.unsaved_changes = true →
        (handle_request env s m p).2.unsaved_changes = true)
    ∧ (∀ (s : State) (reqs : List (Env × EngineMethod × Params)),
        s.unsaved_changes = true →
        (∀ r ∈ reqs, r.2.1 ≠ EngineMethod.projectOpen ∧ r.2.1 ≠ EngineMethod.projectSave) →
        (handleMany s reqs).unsaved_changes = true)
    ∧ (∀ (env : Env) (s : State) (p : Params) (jid : String) (run : AgentRunState),
        p.jobId = some jid → alookup s.agent_runs jid = some run →
        run.qa_passed = true → p.destructiveIntent.getD false = false →
        s.unsaved_changes = true →
        (handle_request env s .agentApply p).1
          = .err .needs_confirmation
              "Unsaved project changes detected. Retry with destructiveIntent=true to continue.") := by
  have hstep : ∀ (env : Env) (s : State) (m : EngineMethod) (p : Params),
      m ≠ .projectOpen → m ≠ .projectSave → s.unsaved_changes = true →
      (handle_request env s m p).2.unsaved_changes = true := by
    intro env s m p h1 h2 hu
    cases m with
    | agentPreflight =>
        simp only [handle_request, handleAgentPreflight, agent_preflight]
        split <;> exact hu
    | agentRun =>
        cases hval : validate_preflight_token env.nowUnix env.fs s (p.preflightToken.getD "") p with
        | mk r s1 =>
            have hcomp := (validate_ok_component env s p r s1 hval).2.2
            simp only [handle_request, handleAgentRun, hval]
            cases r with
            | error m2 => simpa [hcomp] using hu
            | ok u =>
                simp only [agentRunAfterValidate]
                repeat' split
                all_goals simp [hcomp, hu]
    | agentApply =>
        simp only [handle_request, handleAgentApply]
        repeat' split
        all_goals first | exact hu | rfl
    | recordingStart =>
        simp only [handle_request, handleRecordingStart]
        split
        · exact hu
        · split <;> exact hu
    | agentStatus =>
        simp only [handle_request, handleAgentStatus]
        repeat' split
        all_goals exact hu
    | recordingStop => rfl
    | exportRun =>
        simp only [handle_request, handleExportRun]
        repeat' split
        all_goals exact hu
    | exportRunCutPlan =>
        simp only [handle_request, handleExportRunCutPlan]
        repeat' split
        all_goals exact hu
    | projectOpen => exact absurd rfl h1
    | projectSave => exact absurd rfl h2
    | _ => exact hu
  refine ⟨?_, hstep, ?_, ?_⟩
  · intro env s p r s' h
    simp only [handle_request, handleAgentRun] at h
    cases hval : validate_preflight_token env.nowUnix env.fs s (p.preflightToken.getD "") p with
    | mk rr s1 =>
        rw [hval] at h
        cases rr with
        | error m2 => simp at h
        | ok u =>
            simp only [agentRunAfterValidate] at h
            split at h
            · simp at h
            · split at h
              · simp at h
              · rw [Prod.mk.injEq] at h
                rw [← h.2]
  · intro s reqs hu hall
    induction reqs generalizing s with
    | nil => exact hu
    | cons r rest ih =>
        obtain ⟨env, m, pr⟩ := r
        have hm := hall (env, m, pr) (List.mem_cons_self _ _)
        rw [handleMany]
        exact ih _ (hstep env s m pr hm.1 hm.2 hu)
          (fun q hq => hall q (List.mem_cons_of_mem _ hq))
  · intro env s p jid run hjob hfind hqa hdi hu
    simp [handle_request, handleAgentApply, hjob, hfind, hqa, hdi, hu]

/-! ## Witnesses for claims C4 to C10 -/

theorem C4_witness :
    ∃ run : AgentRunState,
      (handle_request envEx sEx .agentRun pEx).1 = .ok (.runStarted run.job_id run.status)
      ∧ alookup ((handle_request envEx sEx .agentRun pEx).2).agent_runs run.job_id = some run
      ∧ run.qa_coverage.hook
          = has_any_token (transcriptTokensAt envEx.fs (pEx.importedTranscriptPath.getD ""))
              ["hook", "intro", "opening"]
      ∧ run.qa_coverage.action
          = has_any_token (transcriptTokensAt envEx.fs (pEx.importedTranscriptPath.getD ""))
              ["action", "step", "steps", "process"]
      ∧ run.qa_coverage.payoff
          = has_any_token (transcriptTokensAt envEx.fs (pEx.importedTranscriptPath.getD ""))
              ["payoff", "result", "outcome"]
      ∧ run.qa_coverage.takeaway
          = has_any_token (transcriptTokensAt envEx.fs (pEx.importedTranscriptPath.getD ""))
              ["takeaway", "lesson", "conclusion"]
      ∧ (run.status = "completed" ∧ run.qa_passed = true ∧ run.qa_score = 1
          ∧ run.qa_missing_beats = [] ↔
          (run.qa_coverage.hook = true ∧ run.qa_coverage.action = true
           ∧ run.qa_coverage.payoff = true ∧ run.qa_coverage.takeaway = true))
      ∧ run.qa_missing_beats
          = (if run.qa_coverage.hook then [] else ["hook"])
            ++ (if run.qa_coverage.action then [] else ["action"])
            ++ (if run.qa_coverage.payoff then [] else ["payoff"])
            ++ (if run.qa_coverage.takeaway then [] else ["takeaway"])
      ∧ (¬ (run.qa_coverage.hook = true ∧ run.qa_coverage.action = true
            ∧ run.qa_coverage.payoff = true ∧ run.qa_coverage.takeaway = true) →
          run.status = "blocked"
          ∧ run.blocking_reason
              = (if transcriptTokensAt envEx.fs (pEx.importedTranscriptPath.getD "") = []
                 then some "empty_transcript" else some "weak_narrative_structure"))
      ∧ (transcriptTokensAt envEx.fs (pEx.importedTranscriptPath.getD "") = [] →
          run.qa_coverage = ⟨false, false, false, false⟩) :=
  C4_imported_transcript_qa envEx sEx pEx rfl rfl rfl (by constructor <;> decide)

theorem C5_witness :
    (runPassedEx.qa_passed = false →
      handle_request envEx sRunEx .agentApply pApplyEx
        = (.err .qa_failed "Narrative QA failed. Apply is blocked.", sRunEx))
    ∧ (runPassedEx.qa_passed = true → sRunEx.unsaved_changes = true →
        pApplyEx.destructiveIntent.getD false = false →
        handle_request envEx sRunEx .agentApply pApplyEx
          = (.err .needs_confirmation
              "Unsaved project changes detected. Retry with destructiveIntent=true to continue.",
             sRunEx))
    ∧ (runPassedEx.qa_passed = true →
        (pApplyEx.destructiveIntent.getD false = true ∨ sRunEx.unsaved_changes = false) →
        (handle_request envEx sRunEx .agentApply pApplyEx).1 = .ok .applied
        ∧ (handle_request envEx sRunEx .agentApply pApplyEx).2
            = { sRunEx with unsaved_changes := true })
    ∧ (runPassedEx.qa_passed = true → sRunEx.unsaved_changes = true →
        pApplyEx.destructiveIntent.getD false = false →
        (handle_request envEx
            (handle_request envEx sRunEx .agentApply pApplyEx).2 .agentApply
            { pApplyEx with destructiveIntent := some true }).1 = .ok .applied) :=
  C5_apply_gates envEx sRunEx pApplyEx "job-1" runPassedEx rfl rfl

theorem C6_witness :
    ∃ run : AgentRunState,
      (handle_request envEx sNoneEx .agentRun pNoneEx).1 = .ok (.runStarted run.job_id run.status)
      ∧ alookup ((handle_request envEx sNoneEx .agentRun pNoneEx).2).agent_runs run.job_id
          = some run
      ∧ run.qa_coverage.hook = true
      ∧ (run.qa_coverage.action = true ↔
          15 ≤ sNoneEx.recording_duration.current envEx.clockNow)
      ∧ (run.qa_coverage.payoff = true ↔
          30 ≤ sNoneEx.recording_duration.current envEx.clockNow)
      ∧ (run.qa_coverage.takeaway = true ↔
          45 ≤ sNoneEx.recording_duration.current envEx.clockNow)
      ∧ (run.status = "blocked" → run.blocking_reason = some "weak_narrative_structure") :=
  C6_duration_qa envEx sNoneEx pNoneEx rfl (by decide) rfl (by constructor <;> decide)

theorem C7_witness :
    (runPassedEx.qa_passed = false →
      handle_request envEx sRunEx .exportRunCutPlan pExportEx
        = (.err .qa_failed "Narrative QA failed. Cut-plan export is blocked.", sRunEx))
    ∧ (runPassedEx.qa_passed = true →
        ((handle_request envEx sRunEx .exportRunCutPlan pExportEx).1
            = .err .invalid_cut_plan "Cut plan artifact is missing." ↔
          coveredCount runPassedEx.qa_coverage = 0))
    ∧ (runPassedEx.qa_passed = true → coveredCount runPassedEx.qa_coverage ≠ 0 →
        handle_request envEx sRunEx .exportRunCutPlan pExportEx
          = (.ok (.exportedCut "/out/cut.mp4" (coveredCount runPassedEx.qa_coverage)), sRunEx)) :=
  C7_export_cut_plan_gates envEx sRunEx pExportEx "job-1" "/out/cut.mp4" runPassedEx
    rfl (by decide) rfl rfl

theorem C8_witness :
    ((build_agent_run "agent-9-1" 5
        { hook := true, action := true, payoff := true, takeaway := true }
        none "2026-01-01T00:00:00Z").qa_passed = true ↔
      (({ hook := true, action := true, payoff := true, takeaway := true } : Coverage).hook = true
       ∧ ({ hook := true, action := true, payoff := true, takeaway := true } : Coverage).action = true
       ∧ ({ hook := true, action := true, payoff := true, takeaway := true } : Coverage).payoff = true
       ∧ ({ hook := true, action := true, payoff := true, takeaway := true } : Coverage).takeaway = true))
    ∧ ((build_agent_run "agent-9-1" 5
          { hook := true, action := true, payoff := true, takeaway := true }
          none "2026-01-01T00:00:00Z").qa_passed = true ↔
        (build_agent_run "agent-9-1" 5
          { hook := true, action := true, payoff := true, takeaway := true }
          none "2026-01-01T00:00:00Z").qa_missing_beats = [])
    ∧ (build_agent_run "agent-9-1" 5
        { hook := true, action := true, payoff := true, takeaway := true }
        none "2026-01-01T00:00:00Z").qa_missing_beats.length ≤ 4
    ∧ (build_agent_run "agent-9-1" 5
        { hook := true, action := true, payoff := true, takeaway := true }
        none "2026-01-01T00:00:00Z").qa_score
        = ((4 - (build_agent_run "agent-9-1" 5
            { hook := true, action := true, payoff := true, takeaway := true }
            none "2026-01-01T00:00:00Z").qa_missing_beats.length : Nat) : Rat) / 4
    ∧ ((build_agent_run "agent-9-1" 5
          { hook := true, action := true, payoff := true, takeaway := true }
          none "2026-01-01T00:00:00Z").qa_passed = true →
        coveredCount (build_agent_run "agent-9-1" 5
          { hook := true, action := true, payoff := true, takeaway := true }
          none "2026-01-01T00:00:00Z").qa_coverage = 4)
    ∧ ((build_agent_run "agent-9-1" 5
          { hook := true, action := true, payoff := true, takeaway := true }
          none "2026-01-01T00:00:00Z").qa_passed = true →
        ∀ (env : Env) (s : State) (p : Params) (url target : String),
          p.outputURL = some url → p.presetId ≠ none → p.jobId = some target →
          alookup s.agent_runs target
            = some (build_agent_run "agent-9-1" 5
                { hook := true, action := true, payoff := true, takeaway := true }
                none "2026-01-01T00:00:00Z") →
          handle_request env s .exportRunCutPlan p = (.ok (.exportedCut url 4), s)) :=
  C8_qa_report_invariants "agent-9-1" 5
    { hook := true, action := true, payoff := true, takeaway := true }
    none "2026-01-01T00:00:00Z"

theorem C9_witness :
    (Params.projectPath { projectPath := some "/projects/demo.ggproject" }
        = some "/projects/demo.ggproject" →
      (handle_request envEx {} .projectOpen
          { projectPath := some "/projects/demo.ggproject" }).2.recent_projects
        = (mkRecentItem "/projects/demo.ggproject" envEx.nowIso
            :: (({} : State).recent_projects.filter
                 fun it => it.projectPath ≠ "/projects/demo.ggproject")).take MAX_RECENT_PROJECTS
      ∧ (handle_request envEx {} .projectOpen
          { projectPath := some "/projects/demo.ggproject" }).2.recents_file
          = (handle_request envEx {} .projectOpen
              { projectPath := some "/projects/demo.ggproject" }).2.recent_projects)
    ∧ (Params.projectPath { projectPath := some "/projects/demo.ggproject" }
          = some "/projects/demo.ggproject" →
        (handle_request envEx {} .projectSave
            { projectPath := some "/projects/demo.ggproject" }).2.recent_projects
          = (mkRecentItem "/projects/demo.ggproject" envEx.nowIso
              :: (({} : State).recent_projects.filter
                   fun it => it.projectPath ≠ "/projects/demo.ggproject")).take MAX_RECENT_PROJECTS)
    ∧ (∀ ps : List (String × String), ps.length = 25 → (ps.map Prod.fst).Nodup →
        ({} : State).recent_projects = [] →
        (openMany {} ps).recent_projects
          = (ps.reverse.map fun pr => mkRecentItem pr.1 pr.2).take MAX_RECENT_PROJECTS
        ∧ (openMany {} ps).recent_projects.length = MAX_RECENT_PROJECTS)
    ∧ (Params.projectPath { projectPath := some "/projects/demo.ggproject" }
          = some "/projects/demo.ggproject" →
        ({} : State).recent_projects.countP
            (fun it => it.projectPath = "/projects/demo.ggproject") = 1 →
        ({} : State).recent_projects.length ≤ MAX_RECENT_PROJECTS →
        (handle_request envEx {} .projectOpen
            { projectPath := some "/projects/demo.ggproject" }).2.recent_projects.length
            = ({} : State).recent_projects.length
        ∧ (handle_request envEx {} .projectOpen
            { projectPath := some "/projects/demo.ggproject" }).2.recent_projects.head?
            = some (mkRecentItem "/projects/demo.ggproject" envEx.nowIso))
    ∧ handle_request envEx {} .projectRecents { projectPath := some "/projects/demo.ggproject" }
        = (.ok (.recents (({} : State).recent_projects.take
            (match Params.limit { projectPath := some "/projects/demo.ggproject" } with
             | some v => min v 100
             | none => DEFAULT_RECENTS_LIMIT))), {}) :=
  C9_recents_index envEx {} { projectPath := some "/projects/demo.ggproject" }
    "/projects/demo.ggproject"

theorem C10_witness :
    (handle_request envEx sRunEx .agentApply pApplyEx).1
      = .err .needs_confirmation
          "Unsaved project changes detected. Retry with destructiveIntent=true to continue."
    ∧ (handleMany sRunEx [(envEx, EngineMethod.captureStatus, {})]).unsaved_changes = true :=
  ⟨C10_run_sets_dirty_then_apply_confirms.2.2.2 envEx sRunEx pApplyEx "job-1" runPassedEx
      rfl rfl rfl rfl rfl,
   C10_run_sets_dirty_then_apply_confirms.2.2.1 sRunEx [(envEx, .captureStatus, {})] rfl
     (by
       intro r hr
       rw [List.mem_singleton] at hr
       subst hr
       exact ⟨by decide, by decide⟩)⟩
